import Mathlib

/-!
Shallow embedding of `src/bench/pcre.c` (the sregex PCRE benchmarking
harness) and verification of its specification.

The program is a single-shot command-line tool: it parses flags, loads a
file, compiles a regex through the external PCRE library, runs up to three
engines (default, JIT, DFA) over the buffer and prints results.  All calls
into the external library and the OS (compile, study, exec, clock, fopen,
fseek, ftell, fread, fclose, malloc) are modelled by an environment record
holding their results; the observable behaviour of the harness is the exit
code together with a trace of events, one event per output call site
(printf / fprintf(stderr) / perror) plus events recording the arguments of
the external match calls.
-/

namespace Sregex

/-- The two output channels of the process: standard output and standard
error. -/
inductive Chan where
  | out
  | err
deriving DecidableEq

/-- One observable event of a run.  Each constructor corresponds to one
output call site in `src/bench/pcre.c` (carrying the formatted arguments),
or records the buffer-size arguments of an external call:

* `usage`            — the usage text printed by `usage()` (stderr);
* `unknownOption`    — `fprintf(stderr, "unknown option: %s\n", ...)`;
* `noEngine`         — `fprintf(stderr, "No engine specified.\n")`;
* `compileCall`      — the `pcre_compile(pattern, flags, ...)` call;
* `compileError`     — `fprintf(stderr, "[error] pos %d: %s\n", ...)`;
* `captureCountFail` — `fprintf(stderr, "failed to get capture count.\n")`;
* `openCall`         — the `fopen(path, "rb")` call;
* `sysErr`           — `perror(label)` (stderr, OS error text appended);
* `allocFail`        — `fprintf(stderr, "failed to allocate %ld bytes.\n", ...)`;
* `truncated`        — `fprintf(stderr, "file truncated.\n")`;
* `header`           — `printf("pcre default ")` / `"pcre JIT "` / `"pcre DFA "`;
* `studyCall`        — the `pcre_study(re, opts, &errstr)` call;
* `studyFail`        — `fprintf(stderr, "failed to study the regex: %s", ...)`;
* `execCall`         — the `pcre_exec` / `pcre_dfa_exec` call, recording the
                       output-vector size and (for DFA) the workspace size;
* `captureTooSmall`  — `fprintf(stderr, "capture size too small")`;
* `noMatch`          — `printf("no match")`;
* `errorCode`        — `printf("error: %d\n", rc)`;
* `matchWord`        — `printf("match")`;
* `pair`             — `printf(" (%d, %d)", ovector[n], ovector[n+1])`;
* `elapsedLine`      — `printf(": %ld clock units elapsed.\n", elapsed)`;
* `footer`           — `printf("(1 clock unit is %lf sec)\n", ...)`. -/
inductive Ev where
  | usage
  | unknownOption (tok : String)
  | noEngine
  | compileCall (pat : String) (caseless : Bool)
  | compileError (off : Int) (msg : String)
  | captureCountFail
  | openCall (path : String)
  | sysErr (label : String)
  | allocFail (n : Nat)
  | truncated
  | header (name : String)
  | studyCall (opts : Nat)
  | studyFail (msg : String)
  | execCall (ovecsize : Nat) (wsSize : Option Nat)
  | captureTooSmall
  | noMatch
  | errorCode (rc : Int)
  | matchWord
  | pair (a b : Int)
  | elapsedLine (n : Int)
  | footer
deriving DecidableEq

/-- The channel each output event is written to, read off from the call
site in the source (`printf` writes to stdout, `fprintf(stderr, ...)` and
`perror` write to stderr).  `none` for the events that record external
calls rather than output. -/
def Ev.stream : Ev → Option Chan
  | .usage => some .err
  | .unknownOption _ => some .err
  | .noEngine => some .err
  | .compileCall _ _ => none
  | .compileError _ _ => some .err
  | .captureCountFail => some .err
  | .openCall _ => none
  | .sysErr _ => some .err
  | .allocFail _ => some .err
  | .truncated => some .err
  | .header _ => some .out
  | .studyCall _ => none
  | .studyFail _ => some .err
  | .execCall _ _ => none
  | .captureTooSmall => some .err
  | .noMatch => some .out
  | .errorCode _ => some .out
  | .matchWord => some .out
  | .pair _ _ => some .out
  | .elapsedLine _ => some .out
  | .footer => some .out

/-- An output trace: the sequence of events emitted so far. -/
abbrev Trace := List Ev

/-- `PCRE_ERROR_NOMATCH` from `pcre.h`. -/
def PCRE_ERROR_NOMATCH : Int := -1

/-- `PCRE_STUDY_JIT_COMPILE` from `pcre.h` (value `0x0001`). -/
def PCRE_STUDY_JIT_COMPILE : Nat := 1

/-- `ENGINE_DEFAULT = 1 << 0` from the source's anonymous enum. -/
def ENGINE_DEFAULT : Nat := 1

/-- `ENGINE_JIT = 1 << 1`. -/
def ENGINE_JIT : Nat := 2

/-- `ENGINE_DFA = 1 << 2`. -/
def ENGINE_DFA : Nat := 4

/-- Embedding of the C test `strncmp(tok, lit, sizeof(lit) - 1) == 0` for a
string literal `lit`: since `strncmp` compares at most `strlen(lit)` bytes
and stops at a NUL, the test succeeds exactly when `lit` is a prefix of the
NUL-terminated `tok`. -/
def strncmpPrefix (lit tok : String) : Bool :=
  lit.data.isPrefixOf tok.data

/-- Embedding of the C test `argv[i][0] == '-'`: an empty argument has
`'\0'` as its first byte, so the test holds exactly for nonempty tokens
whose first character is `'-'`. -/
def startsWithDash (tok : String) : Bool :=
  tok.data.take 1 = ['-']

/-- Result of the option-scanning loop of `main` (lines 48–75): either the
loop finished (`done`), carrying the caseless flag (`flags |= PCRE_CASELESS`),
the engine bitmask and the remaining arguments `argv[i..]`, or an argument
starting with `'-'` matched no option and the program printed
`unknown option` and exited (`unknown`). -/
inductive ParseStep where
  | done (caseless : Bool) (engines : Nat) (rest : List String)
  | unknown (tok : String)
deriving DecidableEq

/-- The option-scanning loop of `main` (lines 48–75), over the arguments
after the program name.  Checks are in source order: `--default`, `--jit`,
`--dfa`, `-i`, each a `strncmp` prefix test; the loop breaks at the first
token not starting with `'-'`. -/
def scanOpts : List String → Bool → Nat → ParseStep
  | [], caseless, eng => ParseStep.done caseless eng []
  | tok :: rest, caseless, eng =>
    if ¬ startsWithDash tok then ParseStep.done caseless eng (tok :: rest)
    else if strncmpPrefix "--default" tok then
      scanOpts rest caseless (eng ||| ENGINE_DEFAULT)
    else if strncmpPrefix "--jit" tok then
      scanOpts rest caseless (eng ||| ENGINE_JIT)
    else if strncmpPrefix "--dfa" tok then
      scanOpts rest caseless (eng ||| ENGINE_DFA)
    else if strncmpPrefix "-i" tok then
      scanOpts rest true eng
    else ParseStep.unknown tok

/-- Environment for one engine run: the results returned by the external
library and the OS during that run.  `ovector n` is the content of slot `n`
of the output vector after the match call. -/
structure EngineEnv where
  studyErr : Option String
  beginClock : Int
  execRc : Int
  endClock : Int
  ovector : Nat → Int

/-- The `printf(" (%d, %d)", ovector[n], ovector[n + 1])` loop
(`for (i = 0, n = 0; i < rc; i++, n += 2)`): one `pair` event per capture
slot `i < k`, reading slots `2*i` and `2*i + 1`. -/
def pairsOut (ov : Nat → Int) (k : Nat) : Trace :=
  (List.range k).map (fun i => Ev.pair (ov (2 * i)) (ov (2 * i + 1)))

/-- One run of the `pcre_exec`-based engines (the `ENGINE_DEFAULT` and
`ENGINE_JIT` blocks of `run_engines`, lines 162–264, which differ only in
the header text and the study options).  Returns `Except.error (code, t)`
when the block calls `exit(code)` after emitting `t`, and `Except.ok t`
when it falls through to the next block.  Mirrors the source exactly:
`ovecsize = (ncaps + 1) * 3`; study-error, `clock() == -1`, `elapsed < 0`
and `rc == 0` are fatal; then the four sequential `if`s on `rc`
(`== PCRE_ERROR_NOMATCH` prints, `< 0` prints the code and exits,
`> 0` prints the pairs), then the elapsed line. -/
def runExecEngine (name : String) (studyOpts : Nat) (ncaps : Nat)
    (e : EngineEnv) : Except (Nat × Trace) Trace :=
  let ovecsize : Nat := (ncaps + 1) * 3
  let t0 : Trace := [Ev.header name, Ev.studyCall studyOpts]
  match e.studyErr with
  | some msg => Except.error (2, t0 ++ [Ev.studyFail msg])
  | none =>
    if e.beginClock = -1 then Except.error (2, t0 ++ [Ev.sysErr "clock"])
    else
      let t1 := t0 ++ [Ev.execCall ovecsize none]
      let rc := e.execRc
      let elapsed := e.endClock - e.beginClock
      if elapsed < 0 then Except.error (2, t1 ++ [Ev.sysErr "clock"])
      else if rc = 0 then Except.error (2, t1 ++ [Ev.captureTooSmall])
      else
        let t2 := t1 ++ (if rc = PCRE_ERROR_NOMATCH then [Ev.noMatch] else [])
        if rc < 0 then Except.error (2, t2 ++ [Ev.errorCode rc])
        else
          let t3 := t2 ++
            (if rc > 0 then Ev.matchWord :: pairsOut e.ovector rc.toNat else [])
          Except.ok (t3 ++ [Ev.elapsedLine elapsed])

/-- One run of the DFA engine (the `ENGINE_DFA` block of `run_engines`,
lines 266–317): `ovecsize = 2`, a 100-int workspace, a plain (non-JIT)
study, and — unlike the other two blocks — `rc == 0` is remapped to
`rc = 1` after the elapsed check instead of being fatal. -/
def runDfaEngine (e : EngineEnv) : Except (Nat × Trace) Trace :=
  let ovecsize : Nat := 2
  let wsSize : Nat := 100
  let t0 : Trace := [Ev.header "pcre DFA ", Ev.studyCall 0]
  match e.studyErr with
  | some msg => Except.error (2, t0 ++ [Ev.studyFail msg])
  | none =>
    if e.beginClock = -1 then Except.error (2, t0 ++ [Ev.sysErr "clock"])
    else
      let t1 := t0 ++ [Ev.execCall ovecsize (some wsSize)]
      let elapsed := e.endClock - e.beginClock
      if elapsed < 0 then Except.error (2, t1 ++ [Ev.sysErr "clock"])
      else
        let rc := if e.execRc = 0 then 1 else e.execRc
        let t2 := t1 ++ (if rc = PCRE_ERROR_NOMATCH then [Ev.noMatch] else [])
        if rc < 0 then Except.error (2, t2 ++ [Ev.errorCode rc])
        else
          let t3 := t2 ++
            (if rc > 0 then Ev.matchWord :: pairsOut e.ovector rc.toNat else [])
          Except.ok (t3 ++ [Ev.elapsedLine elapsed])

/-- Final observable behaviour of a process run: exit code and full output
trace. -/
structure ProgResult where
  exitCode : Nat
  trace : Trace
deriving DecidableEq

/-- `run_engines` (lines 150–320): the three conditional engine blocks in
fixed order `ENGINE_DEFAULT`, `ENGINE_JIT`, `ENGINE_DFA`, each guarded by a
bitmask test, followed by the single conversion-factor footer line; a fatal
error in one block exits the process, skipping the remaining blocks and the
footer. -/
def run_engines (engine_types ncaps : Nat)
    (envD envJ envF : EngineEnv) : ProgResult :=
  match (if engine_types &&& ENGINE_DEFAULT ≠ 0 then
           runExecEngine "pcre default " 0 ncaps envD
         else Except.ok []) with
  | Except.error (c, t) => ⟨c, t⟩
  | Except.ok tD =>
    match (if engine_types &&& ENGINE_JIT ≠ 0 then
             runExecEngine "pcre JIT " PCRE_STUDY_JIT_COMPILE ncaps envJ
           else Except.ok []) with
    | Except.error (c, t) => ⟨c, tD ++ t⟩
    | Except.ok tJ =>
      match (if engine_types &&& ENGINE_DFA ≠ 0 then runDfaEngine envF
             else Except.ok []) with
      | Except.error (c, t) => ⟨c, tD ++ tJ ++ t⟩
      | Except.ok tF => ⟨0, tD ++ tJ ++ tF ++ [Ev.footer]⟩

/-- Environment for a whole process run: the results of every external
call `main` makes.  `compileFail = some (off, msg)` models `pcre_compile`
returning NULL with that error offset and message; `ftellRc` is the `long`
returned by `ftell`; `nread` is the byte count returned by `fread`;
`eofAtShortRead` is the value of `feof(f)` after a short read. -/
structure World where
  compileFail : Option (Int × String)
  fullinfoRc : Int
  ncaps : Nat
  openOk : Bool
  seekEndOk : Bool
  ftellRc : Int
  seekSetOk : Bool
  mallocOk : Bool
  nread : Nat
  eofAtShortRead : Bool
  closeOk : Bool
  envD : EngineEnv
  envJ : EngineEnv
  envF : EngineEnv

/-- Prefix a trace onto a result produced later in the run. -/
def prependTrace (t : Trace) (r : ProgResult) : ProgResult :=
  ⟨r.exitCode, t ++ r.trace⟩

/-- `main` (lines 29–147), over the argument list after the program name
(`argc = args.length + 1`).  Faithful to the source, including its two
slips: after `perror("read file")` for a short read not at end-of-file
there is no `return`, so control falls through to `fclose` and
`run_engines` on the partial buffer; and `len = (size_t) rc` casts the
`ftell` result, modelled as reduction modulo `2 ^ 64`. -/
def mainRun (args : List String) (w : World) : ProgResult :=
  if args.length + 1 < 3 then ⟨1, [Ev.usage]⟩
  else
    match scanOpts args false 0 with
    | ParseStep.unknown tok => ⟨1, [Ev.unknownOption tok]⟩
    | ParseStep.done caseless engine_types rest =>
      if engine_types = 0 then ⟨1, [Ev.noEngine]⟩
      else if rest.length ≠ 2 then ⟨1, [Ev.usage]⟩
      else
        let pat := rest.headD ""
        let path := (rest.drop 1).headD ""
        let t0 : Trace := [Ev.compileCall pat caseless]
        match w.compileFail with
        | some (off, msg) => ⟨2, t0 ++ [Ev.compileError off msg]⟩
        | none =>
          if w.fullinfoRc < 0 then ⟨2, t0 ++ [Ev.captureCountFail]⟩
          else
            let t1 := t0 ++ [Ev.openCall path]
            if ¬ w.openOk then ⟨1, t1 ++ [Ev.sysErr "open file"]⟩
            else if ¬ w.seekEndOk then ⟨1, t1 ++ [Ev.sysErr "seek to file end"]⟩
            else if w.ftellRc = -1 then
              ⟨1, t1 ++ [Ev.sysErr "get file offset by ftell"]⟩
            else
              let len : Nat := (w.ftellRc % (2 ^ 64 : Int)).toNat
              if ¬ w.seekSetOk then
                ⟨1, t1 ++ [Ev.sysErr "seek to file beginning"]⟩
              else if ¬ w.mallocOk then ⟨1, t1 ++ [Ev.allocFail len]⟩
              else if w.nread < len then
                if w.eofAtShortRead then ⟨1, t1 ++ [Ev.truncated]⟩
                else
                  let t2 := t1 ++ [Ev.sysErr "read file"]
                  if ¬ w.closeOk then ⟨1, t2 ++ [Ev.sysErr "close file"]⟩
                  else prependTrace t2
                    (run_engines engine_types w.ncaps w.envD w.envJ w.envF)
              else
                if ¬ w.closeOk then ⟨1, t1 ++ [Ev.sysErr "close file"]⟩
                else prependTrace t1
                  (run_engines engine_types w.ncaps w.envD w.envJ w.envF)

/-- The trace emitted by an engine block, whether it exits or falls
through. -/
def traceOf : Except (Nat × Trace) Trace → Trace
  | Except.error (_, t) => t
  | Except.ok t => t

/-- Whether an engine block falls through (no `exit`). -/
def okRun : Except (Nat × Trace) Trace → Bool
  | Except.error _ => false
  | Except.ok _ => true

/-- The engine-header texts occurring in a trace, in order. -/
def headersOf (t : Trace) : List String :=
  t.filterMap fun ev =>
    match ev with
    | Ev.header n => some n
    | _ => none

/-- An engine environment for a successful run: clean study, valid clock
readings, a single-slot match, all output-vector slots zero. -/
def okEnv : EngineEnv :=
  { studyErr := none, beginClock := 0, execRc := 1, endClock := 5,
    ovector := fun _ => 0 }

/-- `okEnv` with the no-match sentinel as the match-call return. -/
def noMatchEnv : EngineEnv := { okEnv with execRc := -1 }

/-- `okEnv` with an engine-internal error return (`-2` is
`PCRE_ERROR_NULL`, standing for any negative return other than `-1`). -/
def engineErrEnv : EngineEnv := { okEnv with execRc := -2 }

/-- `okEnv` with a zero return from the match call. -/
def zeroRcEnv : EngineEnv := { okEnv with execRc := 0 }

/-- A world in which every external call succeeds: the pattern compiles
with one capture group, the file holds 3 bytes and is read in full, and
every engine run matches. -/
def okWorld : World :=
  { compileFail := none, fullinfoRc := 0, ncaps := 1,
    openOk := true, seekEndOk := true, ftellRc := 3, seekSetOk := true,
    mallocOk := true, nread := 3, eofAtShortRead := false, closeOk := true,
    envD := okEnv, envJ := okEnv, envF := okEnv }

/-- `okWorld` but the file claims 5 bytes while `fread` returns only 3,
with `feof` false (a pending read error rather than end-of-file). -/
def shortReadWorld : World :=
  { okWorld with ftellRc := 5, nread := 3 }

/-- `okWorld` but the pattern fails to compile (offset 1, a missing
closing parenthesis) and the file also fails to open. -/
def badPatternWorld : World :=
  { okWorld with compileFail := some (1, "missing closing parenthesis"),
                 openOk := false }

/-- Whether an event is one of the fatal-error diagnostics of the harness
other than the engine-execution-error code line. -/
def isDiag : Ev → Bool
  | Ev.usage => true
  | Ev.unknownOption _ => true
  | Ev.noEngine => true
  | Ev.compileError _ _ => true
  | Ev.captureCountFail => true
  | Ev.sysErr _ => true
  | Ev.allocFail _ => true
  | Ev.truncated => true
  | Ev.studyFail _ => true
  | Ev.captureTooSmall => true
  | _ => false

/-- Whether an event is part of a per-engine result line or the footer. -/
def isResultLine : Ev → Bool
  | Ev.header _ => true
  | Ev.noMatch => true
  | Ev.matchWord => true
  | Ev.pair _ _ => true
  | Ev.elapsedLine _ => true
  | Ev.footer => true
  | _ => false

/-- The engine bit an option token contributes to the selection bitmask. -/
def engineBit (tok : String) : Nat :=
  if tok = "--default" then ENGINE_DEFAULT
  else if tok = "--jit" then ENGINE_JIT
  else if tok = "--dfa" then ENGINE_DFA
  else 0

/-- A block that falls through is `Except.ok` of its own trace. -/
theorem okRun_eq (r : Except (Nat × Trace) Trace) (h : okRun r = true) :
    r = Except.ok (traceOf r) := by
  cases r with
  | error p => simp [okRun] at h
  | ok t => rfl

/-- `headersOf` distributes over trace concatenation. -/
theorem headersOf_append (s t : Trace) :
    headersOf (s ++ t) = headersOf s ++ headersOf t := by
  simp [headersOf]

/-- The capture-pair printing loop emits no engine header. -/
theorem headersOf_pairsOut (ov : Nat → Int) (k : Nat) :
    headersOf (pairsOut ov k) = [] := by
  simp only [headersOf, pairsOut, List.filterMap_map]
  exact List.filterMap_eq_nil_iff.mpr (fun a _ => rfl)

/-- The capture-pair printing loop emits no footer. -/
theorem footer_not_mem_pairsOut (ov : Nat → Int) (k : Nat) :
    Ev.footer ∉ pairsOut ov k := by
  simp [pairsOut]

/-- Scanning an argument list that parses to an empty engine selection
makes `main` print `No engine specified.` and exit with status 1 (when at
least two arguments are present, so the `argc < 3` usage check passes). -/
theorem mainRun_no_engine (args : List String) (w : World) (c : Bool)
    (rest : List String) (hlen : 2 ≤ args.length)
    (hscan : scanOpts args false 0 = ParseStep.done c 0 rest) :
    mainRun args w = ⟨1, [Ev.noEngine]⟩ := by
  have h3 : ¬ (args.length + 1 < 3) := by omega
  unfold mainRun
  rw [if_neg h3, hscan]
  simp

/-- Claim C1 (status: code_bug).  The claim says a no-match sentinel return
prints `<engine-name> no match: <N> clock units elapsed.`, prints no
`error: <code>` text, does not exit with status 2, and lets subsequent
selected engines run.  The source instead follows
`if (rc == PCRE_ERROR_NOMATCH) printf("no match");` with an unguarded
`if (rc < 0) { printf("error: %d\n", rc); exit(2); }`, and
`PCRE_ERROR_NOMATCH` is `-1`: evaluated at a default+JIT selection whose
default run returns the no-match sentinel, the process prints `no match`,
then `error: -1`, exits with status 2, never prints the elapsed-time line,
and never runs the JIT engine. -/
theorem c1_nomatch_fatal_run :
    run_engines (ENGINE_DEFAULT ||| ENGINE_JIT) 0 noMatchEnv okEnv okEnv =
      ⟨2, [Ev.header "pcre default ", Ev.studyCall 0, Ev.execCall 3 none,
           Ev.noMatch, Ev.errorCode (-1)]⟩ := by
  decide

/-- Claim C2 (status: code_bug).  The claim says a short read terminates
the process with status 1 before any match is attempted, whether or not
the shortfall is due to end-of-file.  In the source the non-EOF branch
does `perror("read file")` but is missing a `return`, so the run below —
`fread` returns 3 of 5 bytes with `feof` false — prints the OS error,
then closes the file, runs the selected engine on the partial buffer, and
exits with status 0. -/
theorem c2_short_read_falls_through :
    mainRun ["--default", "abc", "input.txt"] shortReadWorld =
      ⟨0, [Ev.compileCall "abc" false, Ev.openCall "input.txt",
           Ev.sysErr "read file", Ev.header "pcre default ", Ev.studyCall 0,
           Ev.execCall 6 none, Ev.matchWord, Ev.pair 0 0, Ev.elapsedLine 5,
           Ev.footer]⟩ := by
  decide

/-- Claim C7 (status: confirmed).  If the scan of the arguments finishes
with an empty engine selection — even with a pattern, a file path and `-i`
present — `main` prints `No engine specified.` and exits with status 1;
the trace is exactly `[Ev.noEngine]`, so in particular no `compileCall`
and no `openCall` happens. -/
theorem c7_no_engine_exits_1 (args : List String) (w : World) (c : Bool)
    (rest : List String) (hlen : 2 ≤ args.length)
    (hscan : scanOpts args false 0 = ParseStep.done c 0 rest) :
    mainRun args w = ⟨1, [Ev.noEngine]⟩ :=
  mainRun_no_engine args w c rest hlen hscan

/-- Witness for C7: `-i abc input.txt` supplies the caseless flag, a
pattern and a file path but no engine flag. -/
theorem c7_witness :
    2 ≤ (["-i", "abc", "input.txt"] : List String).length ∧
    mainRun ["-i", "abc", "input.txt"] okWorld = ⟨1, [Ev.noEngine]⟩ :=
  ⟨by decide,
   c7_no_engine_exits_1 ["-i", "abc", "input.txt"] okWorld true
     ["abc", "input.txt"] (by decide) (by decide)⟩

/-- Claim C9 (status: confirmed).  The pattern is compiled before the
input file is opened: whenever the arguments reach the compile stage and
`pcre_compile` fails, `main` exits with status 2 having emitted only the
compile call and the compile-error diagnostic — no `fopen` is attempted,
whatever state the rest of the world (including a nonexistent file) is
in. -/
theorem c9_compile_before_open (args : List String) (w : World) (c : Bool)
    (et : Nat) (rest : List String) (off : Int) (msg : String)
    (hlen : 2 ≤ args.length)
    (hscan : scanOpts args false 0 = ParseStep.done c et rest)
    (heng : et ≠ 0) (hrest : rest.length = 2)
    (hcomp : w.compileFail = some (off, msg)) :
    mainRun args w =
      ⟨2, [Ev.compileCall (rest.headD "") c, Ev.compileError off msg]⟩ ∧
    ∀ p, Ev.openCall p ∉ (mainRun args w).trace := by
  have h3 : ¬ (args.length + 1 < 3) := by omega
  have hm : mainRun args w =
      ⟨2, [Ev.compileCall (rest.headD "") c, Ev.compileError off msg]⟩ := by
    unfold mainRun
    rw [if_neg h3, hscan]
    simp [heng, hrest, hcomp]
  exact ⟨hm, by rw [hm]; intro p; simp⟩

/-- Witness for C9: an unbalanced pattern together with a file that fails
to open; the result is exit status 2 from the compile error, not a file
error. -/
theorem c9_witness :
    mainRun ["--default", "(", "missing.txt"] badPatternWorld =
      ⟨2, [Ev.compileCall "(" false,
           Ev.compileError 1 "missing closing parenthesis"]⟩ ∧
    ∀ p, Ev.openCall p ∉
      (mainRun ["--default", "(", "missing.txt"] badPatternWorld).trace :=
  c9_compile_before_open ["--default", "(", "missing.txt"] badPatternWorld
    false 1 ["(", "missing.txt"] 1 "missing closing parenthesis"
    (by decide) (by decide) (by decide) (by decide) rfl

/-- Claim C10 (status: confirmed).  Argument-error precedence: with fewer
than two arguments after the program name, `main` prints the usage text
and exits 1 before looking at any option (the trace is exactly
`[Ev.usage]` for every argument list of length < 2, including ones holding
engine flags); otherwise, when the scan ends with no engine selected, the
missing-engine message wins even if the positional-argument count is also
wrong. -/
theorem c10_arg_error_precedence :
    (∀ (args : List String) (w : World), args.length < 2 →
        mainRun args w = ⟨1, [Ev.usage]⟩) ∧
    (∀ (args : List String) (w : World) (c : Bool) (rest : List String),
        2 ≤ args.length → scanOpts args false 0 = ParseStep.done c 0 rest →
        rest.length ≠ 2 → mainRun args w = ⟨1, [Ev.noEngine]⟩) := by
  constructor
  · intro args w hlen
    unfold mainRun
    rw [if_pos (by omega)]
  · intro args w c rest hlen hscan _
    exact mainRun_no_engine args w c rest hlen hscan

/-- Witness for C10: `--default` alone yields the usage text (the engine
flag is never examined); `-i foo` yields `No engine specified.` even
though only one positional argument is present. -/
theorem c10_witness :
    mainRun ["--default"] okWorld = ⟨1, [Ev.usage]⟩ ∧
    mainRun ["-i", "foo"] okWorld = ⟨1, [Ev.noEngine]⟩ :=
  ⟨c10_arg_error_precedence.1 ["--default"] okWorld (by decide),
   c10_arg_error_precedence.2 ["-i", "foo"] okWorld true ["foo"]
     (by decide) (by decide) (by decide)⟩

/-- Claim C3 (status: confirmed).  For the `pcre_exec`-based engine blocks
(Default and JIT, any header text and study options), a match-call return
of 0 is fatal: the block prints `capture size too small` to stderr and
exits with status 2.  For the DFA block, a return of 0 is not an error: it
is remapped to 1 and the block reports a match with exactly one
`(start, end)` pair read from slots 0 and 1 of the output vector, then the
elapsed line, and falls through normally. -/
theorem c3_rc_zero (name : String) (opts ncaps : Nat) (e : EngineEnv)
    (hs : e.studyErr = none) (hb : e.beginClock ≠ -1)
    (he : 0 ≤ e.endClock - e.beginClock) :
    (e.execRc = 0 →
      runExecEngine name opts ncaps e =
        Except.error (2, [Ev.header name, Ev.studyCall opts,
          Ev.execCall ((ncaps + 1) * 3) none, Ev.captureTooSmall])) ∧
    (e.execRc = 0 →
      runDfaEngine e =
        Except.ok [Ev.header "pcre DFA ", Ev.studyCall 0,
          Ev.execCall 2 (some 100), Ev.matchWord,
          Ev.pair (e.ovector 0) (e.ovector 1),
          Ev.elapsedLine (e.endClock - e.beginClock)]) := by
  constructor
  · intro h0
    simp [runExecEngine, hs, hb, h0, not_lt.mpr he]
  · intro h0
    simp [runDfaEngine, hs, hb, h0, not_lt.mpr he, pairsOut,
      PCRE_ERROR_NOMATCH, List.range_succ]

/-- Witness for C3: a concrete engine environment with a clean study,
clocks 0 and 5, and a zero match-call return. -/
theorem c3_witness :
    zeroRcEnv.execRc = 0 ∧
    runExecEngine "pcre default " 0 1 zeroRcEnv =
      Except.error (2, [Ev.header "pcre default ", Ev.studyCall 0,
        Ev.execCall ((1 + 1) * 3) none, Ev.captureTooSmall]) ∧
    runDfaEngine zeroRcEnv =
      Except.ok [Ev.header "pcre DFA ", Ev.studyCall 0, Ev.execCall 2 (some 100),
        Ev.matchWord, Ev.pair (zeroRcEnv.ovector 0) (zeroRcEnv.ovector 1),
        Ev.elapsedLine (zeroRcEnv.endClock - zeroRcEnv.beginClock)] :=
  ⟨rfl,
   (c3_rc_zero "pcre default " 0 1 zeroRcEnv rfl (by decide) (by decide)).1 rfl,
   (c3_rc_zero "pcre default " 0 1 zeroRcEnv rfl (by decide) (by decide)).2 rfl⟩

/-- Claim C4 (status: confirmed).  Every match call recorded by a
`pcre_exec`-based engine block passes an output vector of exactly
`3 * (capture_count + 1)` integers and no workspace; every match call
recorded by the DFA block passes an output vector of exactly 2 integers
and a workspace of exactly 100 integers. -/
theorem c4_output_buffer_sizes (name : String) (opts ncaps : Nat)
    (e eF : EngineEnv) :
    (∀ o ws, Ev.execCall o ws ∈ traceOf (runExecEngine name opts ncaps e) →
        o = (ncaps + 1) * 3 ∧ ws = none) ∧
    (∀ o ws, Ev.execCall o ws ∈ traceOf (runDfaEngine eF) →
        o = 2 ∧ ws = some 100) := by
  constructor
  · intro o ws h
    cases hse : e.studyErr <;> simp only [runExecEngine, hse, traceOf] at h <;>
      (try split_ifs at h) <;> simp_all [traceOf, pairsOut]
  · intro o ws h
    cases hse : eF.studyErr <;> simp only [runDfaEngine, hse, traceOf] at h <;>
      (try split_ifs at h) <;> simp_all [traceOf, pairsOut]

/-- Witness for C4: the match call of a concrete default-engine run with
one capture group uses a 6-slot output vector, and the concrete DFA run
uses a 2-slot vector with a 100-int workspace. -/
theorem c4_witness :
    (6 = (1 + 1) * 3 ∧ (none : Option Nat) = none) ∧
    (2 = 2 ∧ (some 100 : Option Nat) = some 100) :=
  ⟨(c4_output_buffer_sizes "pcre default " 0 1 okEnv okEnv).1 6 none (by decide),
   (c4_output_buffer_sizes "pcre default " 0 1 okEnv okEnv).2 2 (some 100)
     (by decide)⟩

/-- Counterexample of claim C5.  The claim says a token that begins with a
recognized option prefix but does not exactly match it (e.g.
`--defaultxyz` or `-ix`) is rejected with a non-zero exit and a usage
message.  The source matches options with
`strncmp(argv[i], lit, strlen(lit))`, a prefix test, so `--defaultxyz` is
accepted as `--default` and `-ix` as `-i`; a full run with `--defaultxyz`
parses, compiles, runs the default engine and exits with status 0, with no
usage text and no `unknown option` message. -/
theorem c5_counterexample :
    scanOpts ["--defaultxyz", "abc", "input.txt"] false 0 =
      ParseStep.done false ENGINE_DEFAULT ["abc", "input.txt"] ∧
    scanOpts ["-ix", "abc", "input.txt"] false 0 =
      ParseStep.done true 0 ["abc", "input.txt"] ∧
    mainRun ["--defaultxyz", "abc", "input.txt"] okWorld =
      ⟨0, [Ev.compileCall "abc" false, Ev.openCall "input.txt",
           Ev.header "pcre default ", Ev.studyCall 0, Ev.execCall 6 none,
           Ev.matchWord, Ev.pair 0 0, Ev.elapsedLine 5, Ev.footer]⟩ := by
  decide

/-- Claim C5 as amended (status: corrected).  A token starting with `-`
that has none of `--default`, `--jit`, `--dfa`, `-i` as a prefix is
rejected: the scan stops with `unknown option`, and `main` (when the
`argc < 3` check passes) prints `unknown option: <tok>` to stderr and
exits with status 1 — an `unknown option` message rather than the usage
text.  A token that extends a recognized option, such as `--defaultxyz`,
is not rejected: it is accepted as the option it extends. -/
theorem c5_amended (tok : String) (rest : List String) (c : Bool) (eng : Nat)
    (w : World)
    (hd : startsWithDash tok = true)
    (h1 : strncmpPrefix "--default" tok = false)
    (h2 : strncmpPrefix "--jit" tok = false)
    (h3 : strncmpPrefix "--dfa" tok = false)
    (h4 : strncmpPrefix "-i" tok = false) :
    scanOpts (tok :: rest) c eng = ParseStep.unknown tok ∧
    (1 ≤ rest.length → mainRun (tok :: rest) w = ⟨1, [Ev.unknownOption tok]⟩) ∧
    (strncmpPrefix "--default" "--defaultxyz" = true ∧
      ("--defaultxyz" : String) ≠ "--default" ∧
      scanOpts ("--defaultxyz" :: rest) c eng =
        scanOpts rest c (eng ||| ENGINE_DEFAULT)) := by
  have hscan : scanOpts (tok :: rest) c eng = ParseStep.unknown tok := by
    simp [scanOpts, hd, h1, h2, h3, h4]
  have hscan0 : scanOpts (tok :: rest) false 0 = ParseStep.unknown tok := by
    simp [scanOpts, hd, h1, h2, h3, h4]
  refine ⟨hscan, fun hr => ?_, by decide, by decide, ?_⟩
  · have h3' : ¬ ((tok :: rest).length + 1 < 3) := by
      simp only [List.length_cons]; omega
    unfold mainRun
    rw [if_neg h3', hscan0]
  · have hda : startsWithDash "--defaultxyz" = true := by decide
    have hpr : strncmpPrefix "--default" "--defaultxyz" = true := by decide
    simp [scanOpts, hda, hpr]

/-- Witness for the amended C5: `--bogus` is rejected with
`unknown option` and exit 1, while `--defaultxyz` is accepted as
`--default`. -/
theorem c5_amended_witness :
    scanOpts ["--bogus", "abc", "input.txt"] false 0 =
      ParseStep.unknown "--bogus" ∧
    (1 ≤ (["abc", "input.txt"] : List String).length →
      mainRun ["--bogus", "abc", "input.txt"] okWorld =
        ⟨1, [Ev.unknownOption "--bogus"]⟩) ∧
    (strncmpPrefix "--default" "--defaultxyz" = true ∧
      ("--defaultxyz" : String) ≠ "--default" ∧
      scanOpts ["--defaultxyz", "abc", "input.txt"] false 0 =
        scanOpts ["abc", "input.txt"] false (0 ||| ENGINE_DEFAULT)) :=
  c5_amended "--bogus" ["abc", "input.txt"] false 0 okWorld
    (by decide) (by decide) (by decide) (by decide) (by decide)

/-- Counterexample of claim C6.  The claim says every fatal-error
diagnostic, including the numeric code printed for a negative match-call
return, is written to standard error.  The source prints that code with
`printf("error: %d\n", rc)`, i.e. to standard output: a default-engine run
whose match call returns `-2` emits the `error: -2` event on stdout, not
stderr, before exiting with status 2. -/
theorem c6_counterexample :
    run_engines ENGINE_DEFAULT 0 engineErrEnv okEnv okEnv =
      ⟨2, [Ev.header "pcre default ", Ev.studyCall 0, Ev.execCall 3 none,
           Ev.errorCode (-2)]⟩ ∧
    Ev.stream (Ev.errorCode (-2)) = some Chan.out ∧
    Ev.stream (Ev.errorCode (-2)) ≠ some Chan.err := by
  decide

/-- Claim C6 as amended (status: corrected).  Every fatal-error diagnostic
other than the engine-execution-error code line is written to standard
error; the `error: <code>` line for a negative match-call return is
written to standard output, which otherwise carries only the per-engine
result lines and the footer.  In particular, everything a run of `main`
writes to stderr is one of the non-`errorCode` diagnostics. -/
theorem c6_amended :
    (∀ ev : Ev, isDiag ev = true → Ev.stream ev = some Chan.err) ∧
    (∀ rc : Int, Ev.stream (Ev.errorCode rc) = some Chan.out) ∧
    (∀ ev : Ev, Ev.stream ev = some Chan.out →
      isResultLine ev = true ∨ ∃ rc, ev = Ev.errorCode rc) ∧
    (∀ (args : List String) (w : World) (ev : Ev),
      ev ∈ (mainRun args w).trace → Ev.stream ev = some Chan.err →
      isDiag ev = true) := by
  refine ⟨fun ev h => ?_, fun rc => rfl, fun ev h => ?_,
    fun args w ev _ h => ?_⟩ <;>
    cases ev <;> simp_all [Ev.stream, isDiag, isResultLine]

/-- Witness for the amended C6, at concrete events and a concrete run. -/
theorem c6_amended_witness :
    Ev.stream Ev.captureTooSmall = some Chan.err ∧
    Ev.stream (Ev.errorCode (-2)) = some Chan.out ∧
    (isResultLine Ev.footer = true ∨ ∃ rc, Ev.footer = Ev.errorCode rc) ∧
    isDiag Ev.noEngine = true :=
  ⟨c6_amended.1 Ev.captureTooSmall rfl, c6_amended.2.1 (-2),
   c6_amended.2.2.1 Ev.footer rfl,
   c6_amended.2.2.2 ["-i", "foo"] okWorld Ev.noEngine (by decide) rfl⟩

/-- Each `pcre_exec`-based engine block emits exactly one engine header —
its own — and never emits the footer, whether it exits or falls
through. -/
theorem runExec_trace (name : String) (opts ncaps : Nat) (e : EngineEnv) :
    headersOf (traceOf (runExecEngine name opts ncaps e)) = [name] ∧
    Ev.footer ∉ traceOf (runExecEngine name opts ncaps e) := by
  cases hse : e.studyErr <;>
    simp only [runExecEngine, hse, traceOf] <;>
    (try split_ifs) <;>
    simp_all [traceOf, headersOf, pairsOut, List.filterMap_map, Function.comp]

/-- The DFA block emits exactly the `pcre DFA ` header and never the
footer. -/
theorem runDfa_trace (e : EngineEnv) :
    headersOf (traceOf (runDfaEngine e)) = ["pcre DFA "] ∧
    Ev.footer ∉ traceOf (runDfaEngine e) := by
  cases hse : e.studyErr <;>
    simp only [runDfaEngine, hse, traceOf] <;>
    (try split_ifs) <;>
    simp_all [traceOf, headersOf, pairsOut, List.filterMap_map, Function.comp]

/-- Scanning a block of engine-flag tokens folds their bits into the
selection bitmask and continues with the remaining arguments. -/
theorem scanOpts_flags (l rest : List String) (c : Bool) (e : Nat)
    (h : ∀ tok ∈ l, tok = "--default" ∨ tok = "--jit" ∨ tok = "--dfa") :
    scanOpts (l ++ rest) c e =
      scanOpts rest c (l.foldl (fun a tok => a ||| engineBit tok) e) := by
  induction l generalizing e with
  | nil => simp
  | cons tok l' ih =>
    have hrec := fun t ht => h t (List.mem_cons_of_mem tok ht)
    rcases h tok (List.mem_cons_self tok l') with h1 | h1 | h1 <;> subst h1 <;>
      simp only [List.cons_append, List.foldl_cons, scanOpts] <;>
      simp +decide [startsWithDash, strncmpPrefix, engineBit] <;>
      exact ih _ hrec

/-- Folding engine bits into the bitmask with `|||` is invariant under
permutation of the flag tokens. -/
theorem foldl_engineBit_perm (l1 l2 : List String) (e : Nat)
    (hp : l1.Perm l2) :
    l1.foldl (fun a tok => a ||| engineBit tok) e =
      l2.foldl (fun a tok => a ||| engineBit tok) e :=
  hp.foldl_eq' (fun x _ y _ z => by
    rw [Nat.or_assoc, Nat.or_assoc, Nat.or_comm (engineBit x) (engineBit y)]) e

/-- Claim C8 (status: confirmed).  For a non-empty engine selection whose
selected runs all finish without a fatal error, `run_engines` emits the
engine headers of exactly the selected engines, in the fixed order
Default, JIT, DFA; it exits with status 0 and the trace holds exactly one
conversion-factor footer line, however many engines ran.  The selection
bitmask itself does not depend on the order of the engine flags on the
command line: scanning any permutation of a block of engine-flag tokens
yields the same parse result. -/
theorem c8_fixed_order_single_footer (et ncaps : Nat)
    (envD envJ envF : EngineEnv)
    (flags1 flags2 rest : List String) (c : Bool) (e0 : Nat)
    (_hne : et ≠ 0)
    (hD : et &&& ENGINE_DEFAULT ≠ 0 →
      okRun (runExecEngine "pcre default " 0 ncaps envD) = true)
    (hJ : et &&& ENGINE_JIT ≠ 0 →
      okRun (runExecEngine "pcre JIT " PCRE_STUDY_JIT_COMPILE ncaps envJ) = true)
    (hF : et &&& ENGINE_DFA ≠ 0 → okRun (runDfaEngine envF) = true)
    (hperm : flags1.Perm flags2)
    (hfl : ∀ tok ∈ flags1, tok = "--default" ∨ tok = "--jit" ∨ tok = "--dfa") :
    headersOf (run_engines et ncaps envD envJ envF).trace =
      ((if et &&& ENGINE_DEFAULT ≠ 0 then ["pcre default "] else []) ++
       (if et &&& ENGINE_JIT ≠ 0 then ["pcre JIT "] else []) ++
       (if et &&& ENGINE_DFA ≠ 0 then ["pcre DFA "] else [])) ∧
    (run_engines et ncaps envD envJ envF).exitCode = 0 ∧
    (run_engines et ncaps envD envJ envF).trace.count Ev.footer = 1 ∧
    scanOpts (flags1 ++ rest) c e0 = scanOpts (flags2 ++ rest) c e0 := by
  set gD := (if et &&& ENGINE_DEFAULT ≠ 0 then
      runExecEngine "pcre default " 0 ncaps envD else Except.ok []) with hgD
  set gJ := (if et &&& ENGINE_JIT ≠ 0 then
      runExecEngine "pcre JIT " PCRE_STUDY_JIT_COMPILE ncaps envJ
    else Except.ok []) with hgJ
  set gF := (if et &&& ENGINE_DFA ≠ 0 then runDfaEngine envF
    else Except.ok []) with hgF
  have hDok : okRun gD = true := by
    by_cases hd : et &&& ENGINE_DEFAULT ≠ 0
    · rw [hgD, if_pos hd]; exact hD hd
    · rw [hgD, if_neg hd]; rfl
  have hJok : okRun gJ = true := by
    by_cases hd : et &&& ENGINE_JIT ≠ 0
    · rw [hgJ, if_pos hd]; exact hJ hd
    · rw [hgJ, if_neg hd]; rfl
  have hFok : okRun gF = true := by
    by_cases hd : et &&& ENGINE_DFA ≠ 0
    · rw [hgF, if_pos hd]; exact hF hd
    · rw [hgF, if_neg hd]; rfl
  have hrun : run_engines et ncaps envD envJ envF =
      ⟨0, traceOf gD ++ traceOf gJ ++ traceOf gF ++ [Ev.footer]⟩ := by
    unfold run_engines
    rw [← hgD, ← hgJ, ← hgF, okRun_eq gD hDok, okRun_eq gJ hJok,
      okRun_eq gF hFok]
    rfl
  have hhD : headersOf (traceOf gD) =
      (if et &&& ENGINE_DEFAULT ≠ 0 then ["pcre default "] else []) := by
    by_cases hd : et &&& ENGINE_DEFAULT ≠ 0
    · rw [hgD, if_pos hd, if_pos hd]
      exact (runExec_trace "pcre default " 0 ncaps envD).1
    · rw [hgD, if_neg hd, if_neg hd]; rfl
  have hhJ : headersOf (traceOf gJ) =
      (if et &&& ENGINE_JIT ≠ 0 then ["pcre JIT "] else []) := by
    by_cases hd : et &&& ENGINE_JIT ≠ 0
    · rw [hgJ, if_pos hd, if_pos hd]
      exact (runExec_trace "pcre JIT " PCRE_STUDY_JIT_COMPILE ncaps envJ).1
    · rw [hgJ, if_neg hd, if_neg hd]; rfl
  have hhF : headersOf (traceOf gF) =
      (if et &&& ENGINE_DFA ≠ 0 then ["pcre DFA "] else []) := by
    by_cases hd : et &&& ENGINE_DFA ≠ 0
    · rw [hgF, if_pos hd, if_pos hd]
      exact (runDfa_trace envF).1
    · rw [hgF, if_neg hd, if_neg hd]; rfl
  have hfD : Ev.footer ∉ traceOf gD := by
    by_cases hd : et &&& ENGINE_DEFAULT ≠ 0
    · rw [hgD, if_pos hd]; exact (runExec_trace "pcre default " 0 ncaps envD).2
    · rw [hgD, if_neg hd]; simp [traceOf]
  have hfJ : Ev.footer ∉ traceOf gJ := by
    by_cases hd : et &&& ENGINE_JIT ≠ 0
    · rw [hgJ, if_pos hd]
      exact (runExec_trace "pcre JIT " PCRE_STUDY_JIT_COMPILE ncaps envJ).2
    · rw [hgJ, if_neg hd]; simp [traceOf]
  have hfF : Ev.footer ∉ traceOf gF := by
    by_cases hd : et &&& ENGINE_DFA ≠ 0
    · rw [hgF, if_pos hd]; exact (runDfa_trace envF).2
    · rw [hgF, if_neg hd]; simp [traceOf]
  have hfl2 : ∀ tok ∈ flags2,
      tok = "--default" ∨ tok = "--jit" ∨ tok = "--dfa" :=
    fun t ht => hfl t (hperm.mem_iff.mpr ht)
  refine ⟨?_, ?_, ?_, ?_⟩
  · rw [hrun]
    simp only [headersOf_append]
    rw [hhD, hhJ, hhF]
    simp [headersOf]
  · rw [hrun]
  · rw [hrun]
    simp [List.count_append, List.count_eq_zero.mpr hfD,
      List.count_eq_zero.mpr hfJ, List.count_eq_zero.mpr hfF]
  · rw [scanOpts_flags flags1 rest c e0 hfl,
      scanOpts_flags flags2 rest c e0 hfl2,
      foldl_engineBit_perm flags1 flags2 e0 hperm]

/-- Witness for C8: all three engines selected (bitmask 7) with successful
runs, and the flag orders `--jit --default` and `--default --jit`. -/
theorem c8_witness :
    headersOf (run_engines 7 0 okEnv okEnv okEnv).trace =
      ((if (7 : Nat) &&& ENGINE_DEFAULT ≠ 0 then ["pcre default "] else []) ++
       (if (7 : Nat) &&& ENGINE_JIT ≠ 0 then ["pcre JIT "] else []) ++
       (if (7 : Nat) &&& ENGINE_DFA ≠ 0 then ["pcre DFA "] else [])) ∧
    (run_engines 7 0 okEnv okEnv okEnv).exitCode = 0 ∧
    (run_engines 7 0 okEnv okEnv okEnv).trace.count Ev.footer = 1 ∧
    scanOpts (["--jit", "--default"] ++ ["abc"]) false 0 =
      scanOpts (["--default", "--jit"] ++ ["abc"]) false 0 :=
  c8_fixed_order_single_footer 7 0 okEnv okEnv okEnv
    ["--jit", "--default"] ["--default", "--jit"] ["abc"] false 0
    (by decide) (fun _ => by decide) (fun _ => by decide) (fun _ => by decide)
    (by decide) (by decide)

end Sregex
